import Mathlib

/-!
# Verification of the supervising dispatcher and its auxiliary subsystems

Shallow embedding of the core of the `tcs_poc` repository: the response cache
(`utils/cache_manager.py`), the conversation memory (`utils/memory_manager.py`),
the performance monitor (`utils/observability.py`), the feedback collector
(`second/utils/feedback_system.py`) and the supervising dispatcher
(`second/agents/supervisor_agent.py`).

Modelling conventions:
* Python strings are sequences of Unicode code points; they are modelled as
  `List ℕ` (`PyStr`).  Concrete literals are converted with `pyS`.
* Python dicts are modelled as insertion-ordered association lists (matching
  CPython's insertion-order-preserving dicts); dict reads guarded by `in`
  checks are modelled by `Option`-returning lookup.
* `datetime` values are modelled as whole seconds since an arbitrary epoch (`ℕ`);
  `timedelta` comparison `now - t > ttl` keeps its Python meaning because all
  recorded timestamps precede the reads in every execution we model.
* Floating point response times and ratings statistics are modelled as exact
  rationals (`ℚ`); Python's `round` (round-half-to-even at a decimal position)
  is modelled exactly on rationals by `pyRound`.
* The external LLM / retrieval collaborators are oracles supplied per call in a
  `DispatchEnv`; an exception raised by a collaborator is an `Except.error`.
-/

/-- A Python string: the sequence of code points of its characters. -/
abbrev PyStr := List ℕ

/-- Convert a Lean string literal to its code-point sequence. -/
def pyS (s : String) : PyStr := s.toList.map Char.toNat

/-- `str.isspace`-style whitespace test for the code points that Python's
`str.strip()` removes in the ASCII range (space, \t, \n, \r, \v, \f). -/
def isPySpace (c : ℕ) : Bool :=
  c = 32 || c = 9 || c = 10 || c = 13 || c = 11 || c = 12

/-- `str.lower` on one code point (ASCII fragment: Python's `str.lower` agrees
with this on the ASCII strings handled by the dispatcher). -/
def pyToLower (c : ℕ) : ℕ := if 65 ≤ c ∧ c ≤ 90 then c + 32 else c

/-- `str.lower()`. -/
def pyLower (s : PyStr) : PyStr := s.map pyToLower

/-- `str.strip()`: remove leading and trailing whitespace. -/
def pyStrip (s : PyStr) : PyStr :=
  ((s.dropWhile isPySpace).reverse.dropWhile isPySpace).reverse

/-- Python's `round(x, nd)` inner step: nearest integer, ties to even. -/
def pyRoundHalfEven (x : ℚ) : ℤ :=
  let f : ℤ := ⌊x⌋
  let r : ℚ := x - f
  if r < 1/2 then f
  else if 1/2 < r then f + 1
  else if f % 2 = 0 then f else f + 1

/-- Python's `round(x, nd)` on exact rationals. -/
def pyRound (nd : ℕ) (x : ℚ) : ℚ :=
  (pyRoundHalfEven (x * 10 ^ nd) : ℚ) / 10 ^ nd

/-! ## MD5 (RFC 1321), used by `ResponseCache._generate_key` -/

/-- The 64 MD5 round constants `⌊|sin (i+1)| · 2³²⌋`. -/
def md5K : List ℕ :=
  [0xd76aa478, 0xe8c7b756, 0x242070db, 0xc1bdceee,
   0xf57c0faf, 0x4787c62a, 0xa8304613, 0xfd469501,
   0x698098d8, 0x8b44f7af, 0xffff5bb1, 0x895cd7be,
   0x6b901122, 0xfd987193, 0xa679438e, 0x49b40821,
   0xf61e2562, 0xc040b340, 0x265e5a51, 0xe9b6c7aa,
   0xd62f105d, 0x02441453, 0xd8a1e681, 0xe7d3fbc8,
   0x21e1cde6, 0xc33707d6, 0xf4d50d87, 0x455a14ed,
   0xa9e3e905, 0xfcefa3f8, 0x676f02d9, 0x8d2a4c8a,
   0xfffa3942, 0x8771f681, 0x6d9d6122, 0xfde5380c,
   0xa4beea44, 0x4bdecfa9, 0xf6bb4b60, 0xbebfbc70,
   0x289b7ec6, 0xeaa127fa, 0xd4ef3085, 0x04881d05,
   0xd9d4d039, 0xe6db99e5, 0x1fa27cf8, 0xc4ac5665,
   0xf4292244, 0x432aff97, 0xab9423a7, 0xfc93a039,
   0x655b59c3, 0x8f0ccc92, 0xffeff47d, 0x85845dd1,
   0x6fa87e4f, 0xfe2ce6e0, 0xa3014314, 0x4e0811a1,
   0xf7537e82, 0xbd3af235, 0x2ad7d2bb, 0xeb86d391]

/-- The MD5 per-round left-rotation amounts. -/
def md5S : List ℕ :=
  [7, 12, 17, 22, 7, 12, 17, 22, 7, 12, 17, 22, 7, 12, 17, 22,
   5, 9, 14, 20, 5, 9, 14, 20, 5, 9, 14, 20, 5, 9, 14, 20,
   4, 11, 16, 23, 4, 11, 16, 23, 4, 11, 16, 23, 4, 11, 16, 23,
   6, 10, 15, 21, 6, 10, 15, 21, 6, 10, 15, 21, 6, 10, 15, 21]

/-- 32-bit bitwise complement. -/
def not32 (x : ℕ) : ℕ := 0xffffffff - x

/-- 32-bit left rotation (the two summands occupy disjoint bit ranges). -/
def rotl32 (x s : ℕ) : ℕ := (x * 2 ^ s) % 2 ^ 32 + x / 2 ^ (32 - s)

/-- One MD5 round on the state `(a, b, c, d)` with message-word accessor `m`. -/
def md5Round (m : ℕ → ℕ) (st : ℕ × ℕ × ℕ × ℕ) (i : ℕ) : ℕ × ℕ × ℕ × ℕ :=
  let (a, b, c, d) := st
  let fg : ℕ × ℕ :=
    if i < 16 then (Nat.lor (Nat.land b c) (Nat.land (not32 b) d), i)
    else if i < 32 then (Nat.lor (Nat.land d b) (Nat.land (not32 d) c), (5 * i + 1) % 16)
    else if i < 48 then (Nat.xor b (Nat.xor c d), (3 * i + 5) % 16)
    else (Nat.xor c (Nat.lor b (not32 d)), (7 * i) % 16)
  let f := (fg.1 + a + md5K.getD i 0 + m fg.2) % 2 ^ 32
  (d, (b + rotl32 f (md5S.getD i 0)) % 2 ^ 32, b, c)

/-- Split a byte list into 64-byte chunks (the padded message length is always
a multiple of 64). -/
def chunks64 (l : List ℕ) : List (List ℕ) :=
  (List.range (l.length / 64)).map fun i => (l.drop (64 * i)).take 64

/-- MD5 padding: append `0x80`, zero bytes to 56 mod 64, then the bit length
as 8 little-endian bytes. -/
def md5Pad (msg : List ℕ) : List ℕ :=
  let z := (120 - ((msg.length + 1) % 64)) % 64
  msg ++ [0x80] ++ List.replicate z 0 ++
    ((List.range 8).map fun i => ((msg.length * 8) % 2 ^ 64) / 2 ^ (8 * i) % 256)

/-- Little-endian 32-bit word `g` of a 64-byte chunk. -/
def md5Word (chunk : List ℕ) (g : ℕ) : ℕ :=
  chunk.getD (4 * g) 0 + 256 * chunk.getD (4 * g + 1) 0 +
    65536 * chunk.getD (4 * g + 2) 0 + 16777216 * chunk.getD (4 * g + 3) 0

/-- Process one 64-byte chunk into the running MD5 state. -/
def md5Chunk (st : ℕ × ℕ × ℕ × ℕ) (chunk : List ℕ) : ℕ × ℕ × ℕ × ℕ :=
  let (a0, b0, c0, d0) := st
  let (a, b, c, d) := (List.range 64).foldl (md5Round (md5Word chunk)) (a0, b0, c0, d0)
  ((a0 + a) % 2 ^ 32, (b0 + b) % 2 ^ 32, (c0 + c) % 2 ^ 32, (d0 + d) % 2 ^ 32)

/-- MD5 digest of a byte string, as the four 32-bit state words. -/
def md5State (msg : List ℕ) : ℕ × ℕ × ℕ × ℕ :=
  (chunks64 (md5Pad msg)).foldl md5Chunk (0x67452301, 0xefcdab89, 0x98badcfe, 0x10325476)

/-- Lower-case hex digit. -/
def hexDigit (n : ℕ) : ℕ := if n < 10 then 48 + n else 87 + n

/-- Hex rendering of one 32-bit word, little-endian byte order (as in
`hexdigest`). -/
def hexWordLE (w : ℕ) : PyStr :=
  (List.range 4).flatMap fun i =>
    [hexDigit (w / 2 ^ (8 * i) % 256 / 16), hexDigit (w / 2 ^ (8 * i) % 16)]

/-- `hashlib.md5(bytes).hexdigest()` as a code-point string. -/
def md5hex (msg : List ℕ) : PyStr :=
  let (a, b, c, d) := md5State msg
  hexWordLE a ++ hexWordLE b ++ hexWordLE c ++ hexWordLE d

/-- UTF-8 encoding of one code point (`str.encode()`). -/
def utf8Char (c : ℕ) : List ℕ :=
  if c < 0x80 then [c]
  else if c < 0x800 then [0xc0 + c / 64, 0x80 + c % 64]
  else if c < 0x10000 then [0xe0 + c / 4096, 0x80 + c / 64 % 64, 0x80 + c % 64]
  else [0xf0 + c / 262144, 0x80 + c / 4096 % 64, 0x80 + c / 64 % 64, 0x80 + c % 64]

/-- `str.encode()` (UTF-8). -/
def utf8Encode (s : PyStr) : List ℕ := s.flatMap utf8Char

/-! ## Insertion-ordered dictionaries (Python `dict`) -/

/-- `d[k]` guarded by `k in d`: lookup in an insertion-ordered assoc list. -/
def alookup {κ β : Type} [DecidableEq κ] (k : κ) : List (κ × β) → Option β
  | [] => none
  | (k', v) :: t => if k' = k then some v else alookup k t

/-- `d[k] = v`: replace in place if the key exists, else append (CPython dicts
preserve insertion order). -/
def aset {κ β : Type} [DecidableEq κ] (k : κ) (v : β) : List (κ × β) → List (κ × β)
  | [] => [(k, v)]
  | (k', v') :: t => if k' = k then (k', v) :: t else (k', v') :: aset k v t

/-- `del d[k]`: remove the entry for `k` (keys are unique in a dict). -/
def adel {κ β : Type} [DecidableEq κ] (k : κ) : List (κ × β) → List (κ × β)
  | [] => []
  | (k', v') :: t => if k' = k then t else (k', v') :: adel k t

/-! ## Response cache (`utils/cache_manager.py`) -/

namespace ResponseCache

/-- A metadata filter dictionary: string keys to string values. -/
abbrev Filters := List (PyStr × PyStr)

/-- Lexicographic `≤` on code-point strings (Python's `str` ordering, used by
`sort_keys=True`). -/
def strLe : PyStr → PyStr → Bool
  | [], _ => true
  | _ :: _, [] => false
  | a :: as, b :: bs => if a < b then true else if b < a then false else strLe as bs

/-- Key order on filter items, as a proposition. -/
def keyLe (p q : PyStr × PyStr) : Prop := strLe p.1 q.1 = true

instance : DecidableRel keyLe := fun p q => by unfold keyLe; infer_instance

/-- `json.dumps(filters, sort_keys=True)` for a string-to-string dict: entries
sorted by key, rendered as `{"k": "v", …}` (the queries in scope contain no
characters needing JSON escaping). Code points: 123 `{`, 125 `}`, 34 `"`,
58 `:`, 44 `,`, 32 space. -/
def jsonDumpsSorted (fs : Filters) : PyStr :=
  let sorted := List.insertionSort keyLe fs
  let item : PyStr × PyStr → PyStr := fun p =>
    [34] ++ p.1 ++ [34, 58, 32, 34] ++ p.2 ++ [34]
  [123] ++ (List.intercalate [44, 32] (sorted.map item)) ++ [125]

/-- `ResponseCache._generate_key`: md5 hex digest of
`query.lower().strip() + "|" + agent_type (+ "|" + json.dumps(filters, sort_keys=True))`.
The filters part is included only when `filters` is truthy (neither `None` nor
the empty dict). -/
def generate_key (query agent_type : PyStr) (filters : Option Filters) : PyStr :=
  let keyParts : List PyStr :=
    [pyStrip (pyLower query), agent_type] ++
      (match filters with
       | some fs => if fs = [] then [] else [jsonDumpsSorted fs]
       | none => [])
  md5hex (utf8Encode (List.intercalate (pyS "|") keyParts))

/-- One cache entry, as stored by `ResponseCache.set`. -/
structure Entry where
  query : PyStr
  agent_type : PyStr
  response : PyStr
  timestamp : ℕ
  filters : Option Filters
  deriving DecidableEq

/-- In-memory state of a `ResponseCache`: the entry dict (keyed by md5 hex
fingerprint) and the TTL in seconds (`timedelta(hours=ttl_hours)`). Disk
persistence (`_save_cache` / `_load_cache`) is outside the model. -/
structure State where
  entries : List (PyStr × Entry)
  ttlSecs : ℕ
  deriving DecidableEq

/-- `ResponseCache.get`: returns the cached response if present and not
expired; an expired entry is deleted (self-healing expiry) and reported as a
miss. `now` is `datetime.now()` in seconds. -/
def get (c : State) (now : ℕ) (query agent_type : PyStr) (filters : Option Filters) :
    State × Option PyStr :=
  let key := generate_key query agent_type filters
  match alookup key c.entries with
  | none => (c, none)
  | some e =>
    if c.ttlSecs < now - e.timestamp then
      ({ c with entries := adel key c.entries }, none)
    else
      (c, some e.response)

/-- `ResponseCache.set`: store the response under the derived key with the
current timestamp, overwriting any previous entry for that key. -/
def set (c : State) (now : ℕ) (query agent_type response : PyStr)
    (filters : Option Filters) : State :=
  { c with
    entries := aset (generate_key query agent_type filters)
      ⟨query, agent_type, response, now, filters⟩ c.entries }

/-- `ResponseCache.clear_expired`: drop every entry older than the TTL;
returns the new state and the removed count. -/
def clear_expired (c : State) (now : ℕ) : State × ℕ :=
  let keep := c.entries.filter fun p => !(decide (c.ttlSecs < now - p.2.timestamp))
  ({ c with entries := keep }, c.entries.length - keep.length)

/-- The dictionary returned by `ResponseCache.get_stats`. -/
structure Stats where
  total_entries : ℕ
  by_agent : List (PyStr × ℕ)
  ttl_hours : ℚ
  deriving DecidableEq

/-- `agent_counts[agent_type] = agent_counts.get(agent_type, 0) + 1`. -/
def bump (k : PyStr) (counts : List (PyStr × ℕ)) : List (PyStr × ℕ) :=
  aset k ((alookup k counts).getD 0 + 1) counts

/-- `ResponseCache.get_stats`: entry count, per-agent-type counts and the TTL
in hours. The source computes no hit/miss counters. -/
def get_stats (c : State) : Stats :=
  { total_entries := c.entries.length
    by_agent := c.entries.foldl (fun acc p => bump p.2.agent_type acc) []
    ttl_hours := (c.ttlSecs : ℚ) / 3600 }

end ResponseCache

/-! ## Conversation memory (`utils/memory_manager.py`) -/

namespace ConversationMemory

/-- One user/agent exchange record. -/
structure Exchange where
  timestamp : ℕ
  user : PyStr
  agent : PyStr
  agent_type : PyStr
  metadata : List (PyStr × PyStr)
  deriving DecidableEq

/-- Memory state: the per-session histories. A Python dict with the
`session_id not in self.sessions` guard behaves exactly like a total function
defaulting to the empty history, which is how we model it. Disk persistence
(`_save_session` / `load_session`) is outside the model. -/
structure State where
  max_history : ℕ
  sessions : PyStr → List Exchange

/-- Python's `lst[-n:]` slice: for `n = 0` it is the whole list (this is the
source of the `max_history = 0` corner case), otherwise the last `n` items. -/
def pyLastSlice {α : Type} (n : ℕ) (l : List α) : List α :=
  if n = 0 then l else l.drop (l.length - n)

/-- `ConversationMemory.add_exchange`: append the exchange, then trim to the
last `max_history` when the bound is exceeded. -/
def add_exchange (m : State) (now : ℕ) (session_id user_query agent_response
    agent_type : PyStr) (metadata : List (PyStr × PyStr)) : State :=
  let h := m.sessions session_id ++
    [⟨now, user_query, agent_response, agent_type, metadata⟩]
  let h' := if m.max_history < h.length then pyLastSlice m.max_history h else h
  { m with sessions := fun s => if s = session_id then h' else m.sessions s }

/-- `ConversationMemory.get_history`: the whole history, or the last `last_n`
when `last_n` is truthy (`if last_n:` — `0` is falsy and yields the whole
history). -/
def get_history (m : State) (session_id : PyStr) (last_n : Option ℕ) :
    List Exchange :=
  let h := m.sessions session_id
  match last_n with
  | some n => if n = 0 then h else pyLastSlice n h
  | none => h

/-- `ConversationMemory.clear_session`. -/
def clear_session (m : State) (session_id : PyStr) : State :=
  { m with sessions := fun s => if s = session_id then [] else m.sessions s }

end ConversationMemory

/-! ## Performance monitor (`utils/observability.py`) -/

namespace PerformanceMonitor

/-- One immutable query log entry (`log_query` stores `len(response)` and the
response time rounded to 3 decimals). -/
structure LogEntry where
  timestamp : ℕ
  session_id : PyStr
  query : PyStr
  agent_type : PyStr
  response_length : ℕ
  response_time_seconds : ℚ
  success : Bool
  error : Option PyStr
  metadata : List (PyStr × PyStr)
  deriving DecidableEq

/-- Monitor state: the in-memory `self.metrics` list (the JSONL file mirror is
outside the model). -/
structure State where
  metrics : List LogEntry
  deriving DecidableEq

/-- `PerformanceMonitor.log_query`: append one immutable entry recording the
outcome; `response_length` is `len(response)` and the response time is stored
rounded to 3 decimals. -/
def log_query (m : State) (now : ℕ) (session_id query agent_type response : PyStr)
    (response_time : ℚ) (success : Bool) (error : Option PyStr)
    (metadata : List (PyStr × PyStr)) : State :=
  { metrics := m.metrics ++
      [⟨now, session_id, query, agent_type, response.length,
        pyRound 3 response_time, success, error, metadata⟩] }

/-- The dictionary returned by `PerformanceMonitor.get_stats`. On an empty log
the source returns a reduced dict `{total_queries: 0, success_rate: 0,
avg_response_time: 0}`; the model renders that case with all counters zero. -/
structure Stats where
  total_queries : ℕ
  success_count : ℕ
  error_count : ℕ
  success_rate : ℚ
  avg_response_time : ℚ
  by_agent : List (PyStr × (ℕ × ℚ))
  deriving DecidableEq

/-- Group the metrics' response times by agent type in first-appearance order
(`by_agent[agent]['count'] += 1; by_agent[agent]['avg_time'].append(...)`). -/
def byAgentTimes (ms : List LogEntry) : List (PyStr × List ℚ) :=
  ms.foldl
    (fun acc e =>
      aset e.agent_type
        (((alookup e.agent_type acc).getD []) ++ [e.response_time_seconds]) acc)
    []

/-- `PerformanceMonitor.get_stats`: aggregate counts, rates and per-agent
averages recomputed over the whole log. -/
def get_stats (m : State) : Stats :=
  if m.metrics = [] then ⟨0, 0, 0, 0, 0, []⟩
  else
    let total := m.metrics.length
    let successes := (m.metrics.filter (·.success)).length
    let times := m.metrics.map (·.response_time_seconds)
    let avg := times.sum / times.length
    { total_queries := total
      success_count := successes
      error_count := total - successes
      success_rate := pyRound 2 ((successes : ℚ) / total * 100)
      avg_response_time := pyRound 3 avg
      by_agent := (byAgentTimes m.metrics).map fun p =>
        (p.1, (p.2.length, pyRound 3 (p.2.sum / p.2.length))) }

/-- One anomaly record produced by `detect_anomalies`. -/
inductive Anomaly where
  | slow_query (query : PyStr) (time threshold : ℚ)
  | error (query : PyStr) (err : Option PyStr)
  deriving DecidableEq

/-- `PerformanceMonitor.detect_anomalies`: nothing below 5 entries; otherwise
scan the last 10 entries against twice the all-time mean response time, and
flag failures. Per entry the slow flag is appended before the error flag, as
in the source loop. -/
def detect_anomalies (m : State) : List Anomaly :=
  if m.metrics.length < 5 then []
  else
    let times := m.metrics.map (·.response_time_seconds)
    let threshold := (times.sum / times.length) * 2
    (m.metrics.drop (m.metrics.length - 10)).flatMap fun e =>
      (if threshold < e.response_time_seconds then
        [Anomaly.slow_query (e.query.take 50) e.response_time_seconds (pyRound 2 threshold)]
      else []) ++
      (if e.success then [] else [Anomaly.error (e.query.take 50) e.error])

end PerformanceMonitor

/-! ## Feedback collector (`second/utils/feedback_system.py`) -/

namespace FeedbackCollector

/-- One feedback entry (`response` is stored truncated to 200 characters). -/
structure Feedback where
  id : ℕ
  timestamp : ℕ
  session_id : PyStr
  query : PyStr
  response : PyStr
  rating : ℤ
  comment : PyStr
  agent_type : PyStr
  deriving DecidableEq

/-- Collector state: the in-memory `self.feedbacks` list. -/
structure State where
  feedbacks : List Feedback
  deriving DecidableEq

/-- `FeedbackCollector.add_feedback`: assign the next id, truncate the stored
response to 200 characters, append. Returns the new state and the id. -/
def add_feedback (c : State) (now : ℕ) (session_id query response : PyStr)
    (rating : ℤ) (comment agent_type : PyStr) : State × ℕ :=
  let fb : Feedback :=
    ⟨c.feedbacks.length + 1, now, session_id, query, response.take 200,
      rating, comment, agent_type⟩
  ({ feedbacks := c.feedbacks ++ [fb] }, fb.id)

/-- The dictionary returned by `get_feedback_stats`. On an empty collection
the source returns a reduced dict; the model renders it with zeros. -/
structure Stats where
  total_feedbacks : ℕ
  avg_rating : ℚ
  satisfaction_rate : ℚ
  thumbs_up : ℕ
  thumbs_down : ℕ
  by_agent : List (PyStr × (ℕ × ℚ))
  deriving DecidableEq

/-- Agent types in first-appearance order (the iteration order of the
`by_agent` dict). -/
def agentOrder (fbs : List Feedback) : List PyStr :=
  fbs.foldl (fun acc f => if f.agent_type ∈ acc then acc else acc ++ [f.agent_type]) []

/-- The ratings recorded for one agent type, in append order. -/
def ratingsOf (fbs : List Feedback) (a : PyStr) : List ℤ :=
  (fbs.filter (fun f => f.agent_type = a)).map (·.rating)

/-- `FeedbackCollector.get_feedback_stats`. Faithful to the source, including
its variable shadowing: the list comprehension variable `ratings` (initially
all ratings) is rebound by the `for agent in by_agent:` loop, so the
`thumbs_up` / `thumbs_down` counts that follow the loop are computed over the
ratings of the **last** agent type only, not over all feedback. -/
def get_feedback_stats (c : State) : Stats :=
  if c.feedbacks = [] then ⟨0, 0, 0, 0, 0, []⟩
  else
    let total := c.feedbacks.length
    let ratings : List ℤ := c.feedbacks.map (·.rating)
    let avg := ((ratings.sum : ℤ) : ℚ) / total
    let satisfied := (ratings.filter (fun r => 4 ≤ r)).length
    let order := agentOrder c.feedbacks
    -- after the per-agent loop, `ratings` denotes the last agent's list
    let ratingsAfterLoop := match order.getLast? with
      | some a => ratingsOf c.feedbacks a
      | none => ratings
    { total_feedbacks := total
      avg_rating := pyRound 2 avg
      satisfaction_rate := pyRound 1 ((satisfied : ℚ) / total * 100)
      thumbs_up := (ratingsAfterLoop.filter (fun r => 4 ≤ r)).length
      thumbs_down := (ratingsAfterLoop.filter (fun r => r < 4)).length
      by_agent := order.map fun a =>
        let rs := ratingsOf c.feedbacks a
        (a, (rs.length, pyRound 2 ((rs.sum : ℚ) / rs.length))) }

end FeedbackCollector

/-! ## Supervising dispatcher (`second/agents/supervisor_agent.py`) -/

namespace SupervisorAgent

/-- The constructor flags that gate the subsystems (`enable_feedback` never
affects `route_query` and is omitted). -/
structure Config where
  enable_memory : Bool
  enable_cache : Bool
  enable_monitoring : Bool

/-- Supervisor state: the three stateful subsystems plus a ghost counter that
is incremented at each responder invocation site, used only to state
invocation-count properties. -/
structure State where
  cache : ResponseCache.State
  memory : ConversationMemory.State
  monitor : PerformanceMonitor.State
  responder_calls : ℕ

/-- The freshly constructed supervisor: 24 h cache TTL, `max_history = 10`,
empty monitor log. -/
def init : State :=
  { cache := { entries := [], ttlSecs := 86400 }
    memory := { max_history := 10, sessions := fun _ => [] }
    monitor := { metrics := [] }
    responder_calls := 0 }

/-- `SupervisorAgent.classify_query`, decision part: the LLM call is an
external collaborator, so this maps its raw completion text to a category via
`classification = response...content.strip().lower()` followed by
`'marketing' in classification`. -/
def classify_query (raw : PyStr) : PyStr :=
  if pyS "marketing" <:+: pyLower (pyStrip raw) then pyS "marketing"
  else pyS "knowledge"

/-- Keyword extraction of the campaign format (first match of the `elif`
chain wins; default `social_media`). -/
def campaignType (query : PyStr) : PyStr :=
  let lq := pyLower query
  if pyS "email" <:+: lq then pyS "email"
  else if pyS "sms" <:+: lq then pyS "sms"
  else if pyS "blog" <:+: lq then pyS "blog"
  else if pyS "poster" <:+: lq then pyS "poster"
  else pyS "social_media"

/-- Keyword extraction of the target audience (default `salaried`). -/
def targetAudience (query : PyStr) : PyStr :=
  let lq := pyLower query
  if pyS "self-employed" <:+: lq ∨ pyS "self employed" <:+: lq then
    pyS "self_employed"
  else if pyS "young" <:+: lq then pyS "young_professionals"
  else if pyS "family" <:+: lq ∨ pyS "families" <:+: lq then pyS "families"
  else pyS "salaried"

/-- The response dict returned by `route_query` (the knowledge agent's extra
metadata fields are outside the claims and not tracked). -/
structure RouteResult where
  agent : PyStr
  response_type : PyStr
  answer : PyStr
  from_cache : Bool := false
  campaign : Option (PyStr × PyStr) := none
  deriving DecidableEq

/-- The external collaborators consulted during one dispatch: the classifier
LLM's raw output, the two responders' results (an `Except.error` models a
raised exception carrying `str(e)`), the wall-clock second and the measured
response time. -/
structure DispatchEnv where
  classify_raw : Except PyStr PyStr
  knowledge_answer : Except PyStr PyStr
  marketing_content : Except PyStr PyStr
  now : ℕ
  response_time : ℚ

/-- Result of the `try` body of `route_query`: the state after the body, the
final value of the local variable `result` (`{}` ↦ `none` — on the cache-hit
early return the returned dict is *not* assigned to `result`), and the
returned value or propagated exception. -/
structure TryOut where
  st : State
  resultLocal : Option RouteResult
  outcome : Except PyStr RouteResult

/-- Tail of `route_query` after a successful responder call: cache write,
memory write, return. -/
def finishOk (cfg : Config) (st : State) (env : DispatchEnv)
    (query session_id agent_type response : PyStr) (result : RouteResult) :
    TryOut :=
  let st₁ :=
    if cfg.enable_cache then
      { st with cache := ResponseCache.set st.cache env.now query agent_type response none }
    else st
  let st₂ :=
    if cfg.enable_memory then
      let mem := ConversationMemory.add_exchange st₁.memory env.now session_id
        query response agent_type []
      { st₁ with memory := mem }
    else st₁
  ⟨st₂, some result, .ok result⟩

/-- The cache-miss path of `route_query`: classification, responder
invocation, cache and memory writes. -/
def routeMiss (cfg : Config) (st : State) (env : DispatchEnv)
    (query session_id : PyStr) : TryOut :=
  match env.classify_raw with
  | .error e => ⟨st, none, .error e⟩
  | .ok raw =>
    let agent_type := classify_query raw
    if agent_type = pyS "marketing" then
      let st' := { st with responder_calls := st.responder_calls + 1 }
      match env.marketing_content with
      | .error e => ⟨st', none, .error e⟩
      | .ok content =>
        finishOk cfg st' env query session_id agent_type content
          { agent := pyS "marketing", response_type := pyS "campaign",
            answer := content,
            campaign := some (campaignType query, targetAudience query) }
    else
      let st' := { st with responder_calls := st.responder_calls + 1 }
      match env.knowledge_answer with
      | .error e => ⟨st', none, .error e⟩
      | .ok answer =>
        finishOk cfg st' env query session_id agent_type answer
          { agent := pyS "knowledge", response_type := pyS "answer",
            answer := answer }

/-- The `try` body of `route_query`: cache lookup with agent type `"any"`
(note: `set` later uses the *classified* agent type), truthiness test of the
cached response, then the miss path. -/
def routeTry (cfg : Config) (st : State) (env : DispatchEnv)
    (query session_id : PyStr) : TryOut :=
  if cfg.enable_cache then
    let gr := ResponseCache.get st.cache env.now query (pyS "any") none
    let st₁ := { st with cache := gr.1 }
    match gr.2 with
    | some resp =>
      if resp = [] then routeMiss cfg st₁ env query session_id
      else
        ⟨st₁, none,
          .ok { agent := pyS "cached", response_type := pyS "cached",
                answer := resp, from_cache := true }⟩
    | none => routeMiss cfg st₁ env query session_id
  else routeMiss cfg st env query session_id

/-- `SupervisorAgent.route_query`: the `try` body wrapped in the
`except`/`finally` that logs every attempt to the monitor — on the paths
where the local `result` is still the empty dict, the logged agent type is
`'error'` and the logged response is empty. -/
def route_query (cfg : Config) (st : State) (query session_id : PyStr)
    (env : DispatchEnv) : State × Except PyStr RouteResult :=
  let t := routeTry cfg st env query session_id
  let success : Bool := match t.outcome with | .ok _ => true | .error _ => false
  let error_msg : Option PyStr := match t.outcome with
    | .ok _ => none
    | .error e => some e
  let st' :=
    if cfg.enable_monitoring then
      let mon := PerformanceMonitor.log_query t.st.monitor env.now session_id
        query
        (match t.resultLocal with | some r => r.agent | none => pyS "error")
        (match t.resultLocal with | some r => r.answer | none => [])
        env.response_time success error_msg []
      { t.st with monitor := mon }
    else t.st
  (st', t.outcome)

/-- One dispatch request: the query, the session, and that call's external
environment. -/
structure Call where
  query : PyStr
  session_id : PyStr
  env : DispatchEnv

/-- Run a sequence of dispatches; also return, per call, whether it raised. -/
def dispatchAll (cfg : Config) (st : State) : List Call → State × List Bool
  | [] => (st, [])
  | c :: cs =>
    let r := route_query cfg st c.query c.session_id c.env
    let rest := dispatchAll cfg r.1 cs
    (rest.1, (match r.2 with | .ok _ => false | .error _ => true) :: rest.2)

end SupervisorAgent

/-! ## Helper lemmas -/

section Lemmas

open ResponseCache

theorem strLe_total : ∀ a b : PyStr, strLe a b = true ∨ strLe b a = true := by
  intro a
  induction a with
  | nil => intro b; left; rfl
  | cons x xs ih =>
    intro b
    cases b with
    | nil => right; rfl
    | cons y ys =>
      by_cases hxy : x < y
      · left; simp [strLe, hxy]
      · by_cases hyx : y < x
        · right; simp [strLe, hyx]
        · have hxy' : x = y := by omega
          subst hxy'
          rcases ih ys with h | h
          · left; simpa [strLe] using h
          · right; simpa [strLe] using h

theorem strLe_antisymm : ∀ a b : PyStr, strLe a b = true → strLe b a = true → a = b := by
  intro a
  induction a with
  | nil =>
    intro b _ hba
    cases b with
    | nil => rfl
    | cons y ys => simp [strLe] at hba
  | cons x xs ih =>
    intro b hab hba
    cases b with
    | nil => simp [strLe] at hab
    | cons y ys =>
      by_cases hxy : x < y
      · simp [strLe, hxy, Nat.lt_asymm hxy] at hba
      · by_cases hyx : y < x
        · simp [strLe, hyx, Nat.lt_asymm hyx] at hab
        · have hxy' : x = y := by omega
          subst hxy'
          simp only [strLe, if_neg (lt_irrefl x)] at hab hba
          rw [ih ys hab hba]

theorem strLe_trans : ∀ a b c : PyStr, strLe a b = true → strLe b c = true →
    strLe a c = true := by
  intro a
  induction a with
  | nil => intro b c _ _; rfl
  | cons x xs ih =>
    intro b c hab hbc
    cases b with
    | nil => simp [strLe] at hab
    | cons y ys =>
      cases c with
      | nil => simp [strLe] at hbc
      | cons z zs =>
        simp only [strLe] at hab hbc ⊢
        by_cases hxy : x < y
        · by_cases hyz : y < z
          · simp [show x < z by omega]
          · by_cases hzy : z < y
            · simp [hyz, hzy] at hbc
            · have : y = z := by omega
              subst this
              simp [hxy]
        · by_cases hyx : y < x
          · simp [hxy, hyx] at hab
          · have hxy' : x = y := by omega
            subst hxy'
            simp only [if_neg (lt_irrefl x)] at hab
            by_cases hyz : x < z
            · simp [hyz]
            · by_cases hzy : z < x
              · simp [hyz, hzy] at hbc
              · have : x = z := by omega
                subst this
                simp only [if_neg (lt_irrefl x)] at hbc ⊢
                exact ih ys zs hab hbc

instance : IsTotal (PyStr × PyStr) keyLe :=
  ⟨fun p q => strLe_total p.1 q.1⟩

instance : IsTrans (PyStr × PyStr) keyLe :=
  ⟨fun p q r => strLe_trans p.1 q.1 r.1⟩

/-- Two key-sorted association lists that are permutations of each other and
have pairwise-distinct keys are equal (their key-sorted forms coincide). -/
theorem sorted_perm_nodupkeys_eq : ∀ {l₁ l₂ : Filters}, l₁.Perm l₂ →
    l₁.Sorted keyLe → l₂.Sorted keyLe → (l₁.map Prod.fst).Nodup → l₁ = l₂ := by
  intro l₁
  induction l₁ with
  | nil => intro l₂ hp _ _ _; exact (hp.nil_eq).symm ▸ rfl
  | cons a t₁ ih =>
    intro l₂ hp hs₁ hs₂ hnd
    cases l₂ with
    | nil => exact absurd hp.symm.nil_eq (by simp)
    | cons b t₂ =>
      have hab : a = b := by
        have hamem : a ∈ b :: t₂ := hp.mem_iff.mp (List.mem_cons_self a t₁)
        have hbmem : b ∈ a :: t₁ := hp.mem_iff.mpr (List.mem_cons_self b t₂)
        rcases List.mem_cons.mp hamem with h | hat₂
        · exact h
        rcases List.mem_cons.mp hbmem with h | hbt₁
        · exact h.symm
        -- keyLe both ways ⇒ equal keys; distinct keys in l₁ forbid b ∈ t₁
        have h₁ : keyLe a b := (List.sorted_cons.mp hs₁).1 b hbt₁
        have h₂ : keyLe b a := (List.sorted_cons.mp hs₂).1 a hat₂
        have hkeys : a.1 = b.1 := strLe_antisymm _ _ h₁ h₂
        have : b.1 ∈ t₁.map Prod.fst := List.mem_map_of_mem Prod.fst hbt₁
        have := (List.nodup_cons.mp hnd).1
        rw [← hkeys] at *
        exact absurd ‹a.1 ∈ t₁.map Prod.fst› ‹a.1 ∉ t₁.map Prod.fst›
      subst hab
      have := ih (hp.cons_inv) (List.sorted_cons.mp hs₁).2
        (List.sorted_cons.mp hs₂).2 (List.nodup_cons.mp hnd).2
      rw [this]

/-- Key-sorting with `insertionSort` is invariant under permutation when the
keys are pairwise distinct. -/
theorem insertionSort_perm_nodupkeys (f₁ f₂ : Filters) (hp : f₁.Perm f₂)
    (hnd : (f₁.map Prod.fst).Nodup) :
    List.insertionSort keyLe f₁ = List.insertionSort keyLe f₂ := by
  apply sorted_perm_nodupkeys_eq
  · exact (List.perm_insertionSort keyLe f₁).trans
      (hp.trans (List.perm_insertionSort keyLe f₂).symm)
  · exact List.sorted_insertionSort keyLe f₁
  · exact List.sorted_insertionSort keyLe f₂
  · exact ((List.perm_insertionSort keyLe f₁).map Prod.fst).nodup_iff.mpr hnd

end Lemmas

section StripLemmas

/-- `pyToLower` maps no character into or out of the whitespace set. -/
theorem isPySpace_pyToLower (c : ℕ) : isPySpace (pyToLower c) = isPySpace c := by
  unfold pyToLower
  split
  · rename_i h
    have h1 : isPySpace (c + 32) = false := by
      unfold isPySpace
      simp only [Bool.or_eq_false_iff, decide_eq_false_iff_not]
      omega
    have h2 : isPySpace c = false := by
      unfold isPySpace
      simp only [Bool.or_eq_false_iff, decide_eq_false_iff_not]
      omega
    rw [h1, h2]
  · rfl

/-- Lower-casing commutes with stripping. -/
theorem pyLower_pyStrip (s : PyStr) : pyLower (pyStrip s) = pyStrip (pyLower s) := by
  unfold pyLower pyStrip
  have hdw : ∀ t : PyStr, (t.map pyToLower).dropWhile isPySpace =
      (t.dropWhile isPySpace).map pyToLower := by
    intro t
    induction t with
    | nil => rfl
    | cons x xs ih =>
      by_cases hx : isPySpace x
      · simpa [List.dropWhile_cons, hx, isPySpace_pyToLower] using ih
      · simp [List.dropWhile_cons, hx, isPySpace_pyToLower]
  rw [hdw, ← List.map_reverse, hdw, List.map_reverse]

/-- A nonempty all-non-whitespace pattern is an infix of `dropWhile isPySpace s`
iff it is an infix of `s`. -/
theorem infix_dropWhile_iff (p : PyStr) (hne : p ≠ [])
    (hns : ∀ c ∈ p, isPySpace c = false) :
    ∀ s : PyStr, (p <:+: s.dropWhile isPySpace ↔ p <:+: s) := by
  intro s
  constructor
  · intro h
    exact h.trans (List.dropWhile_suffix isPySpace).isInfix
  · intro h
    induction s with
    | nil => simpa using h
    | cons x xs ih =>
      by_cases hx : isPySpace x
      · rw [List.dropWhile_cons, if_pos hx]
        rcases List.infix_cons_iff.mp h with hpre | hinf
        · -- a prefix starting with whitespace contradicts the pattern
          exfalso
          cases p with
          | nil => exact hne rfl
          | cons c cs =>
            rcases hpre with ⟨t, ht⟩
            injection ht with h1 _
            have hcs := hns c (List.mem_cons_self c cs)
            rw [h1, hx] at hcs
            simp at hcs
        · exact ih hinf
      · rw [List.dropWhile_cons, if_neg hx]
        exact h

/-- Stripping surrounding whitespace neither creates nor destroys occurrences
of a nonempty all-non-whitespace pattern. -/
theorem infix_pyStrip_iff (p : PyStr) (hne : p ≠ [])
    (hns : ∀ c ∈ p, isPySpace c = false) (s : PyStr) :
    p <:+: pyStrip s ↔ p <:+: s := by
  unfold pyStrip
  have hrev_ne : p.reverse ≠ [] := by simpa using hne
  have hrev_ns : ∀ c ∈ p.reverse, isPySpace c = false := by
    intro c hc
    exact hns c (List.mem_reverse.mp hc)
  calc p <:+: ((s.dropWhile isPySpace).reverse.dropWhile isPySpace).reverse
      ↔ p.reverse <:+: (s.dropWhile isPySpace).reverse.dropWhile isPySpace := by
        rw [show p = p.reverse.reverse by simp]
        rw [ List.reverse_infix]
        simp
    _ ↔ p.reverse <:+: (s.dropWhile isPySpace).reverse :=
        infix_dropWhile_iff p.reverse hrev_ne hrev_ns _
    _ ↔ p <:+: s.dropWhile isPySpace := List.reverse_infix
    _ ↔ p <:+: s := infix_dropWhile_iff p hne hns s

end StripLemmas

/-! ## Sliding-window lemmas -/

/-- The last `n` elements of a list. -/
def lastN {α : Type} (n : ℕ) (l : List α) : List α := l.drop (l.length - n)

/-- One exchange-to-be: timestamp, user query, agent response, agent type. -/
abbrev AddSpec := ℕ × PyStr × PyStr × PyStr

/-- The exchange record an `AddSpec` produces. -/
def exchangeOf (p : AddSpec) : ConversationMemory.Exchange :=
  ⟨p.1, p.2.1, p.2.2.1, p.2.2.2, []⟩

/-- Run a sequence of `add_exchange` calls for one session. -/
def applyAdds (m : ConversationMemory.State) (sid : PyStr) (adds : List AddSpec) :
    ConversationMemory.State :=
  adds.foldl
    (fun acc p => ConversationMemory.add_exchange acc p.1 sid p.2.1 p.2.2.1 p.2.2.2 [])
    m

theorem lastN_of_le {α : Type} (n : ℕ) (l : List α) (h : l.length ≤ n) :
    lastN n l = l := by
  unfold lastN
  rw [show l.length - n = 0 by omega, List.drop_zero]

theorem lastN_idem {α : Type} (n : ℕ) (l : List α) : lastN n (lastN n l) = lastN n l := by
  apply lastN_of_le
  unfold lastN
  rw [List.length_drop]
  omega

theorem lastN_lastN_append {α : Type} (n : ℕ) (a b : List α) :
    lastN n (lastN n a ++ b) = lastN n (a ++ b) := by
  unfold lastN
  simp only [List.drop_append_eq_append_drop, List.drop_drop, List.length_append,
    List.length_drop]
  congr 1
  · congr 1
    omega
  · congr 1
    omega

theorem add_exchange_history (m : ConversationMemory.State) (ts : ℕ)
    (sid q r a : PyStr) (h1 : 1 ≤ m.max_history) :
    (ConversationMemory.add_exchange m ts sid q r a []).sessions sid =
      lastN m.max_history (m.sessions sid ++ [⟨ts, q, r, a, []⟩]) := by
  unfold ConversationMemory.add_exchange ConversationMemory.pyLastSlice
  dsimp only
  rw [if_pos rfl]
  split
  · rw [if_neg (by omega)]
    rfl
  · rename_i hle
    rw [lastN_of_le _ _ (Nat.le_of_not_lt hle)]

theorem applyAdds_history (sid : PyStr) : ∀ (adds : List AddSpec)
    (m : ConversationMemory.State), 1 ≤ m.max_history →
    m.sessions sid = lastN m.max_history (m.sessions sid) →
    (applyAdds m sid adds).sessions sid =
      lastN m.max_history (m.sessions sid ++ adds.map exchangeOf) := by
  intro adds
  induction adds with
  | nil =>
    intro m h1 hinv
    simpa [applyAdds] using hinv
  | cons x rest ih =>
    intro m h1 hinv
    have hstep : applyAdds m sid (x :: rest) =
        applyAdds (ConversationMemory.add_exchange m x.1 sid x.2.1 x.2.2.1 x.2.2.2 [])
          sid rest := rfl
    rw [hstep]
    have hist : (ConversationMemory.add_exchange m x.1 sid x.2.1 x.2.2.1 x.2.2.2
        []).sessions sid =
        lastN m.max_history (m.sessions sid ++ [exchangeOf x]) :=
      add_exchange_history m x.1 sid x.2.1 x.2.2.1 x.2.2.2 h1
    have hmh : (ConversationMemory.add_exchange m x.1 sid x.2.1 x.2.2.1 x.2.2.2
        []).max_history = m.max_history := rfl
    rw [ih _ (by rw [hmh]; exact h1)
      (by rw [hist, hmh]; exact (lastN_idem _ _).symm), hmh, hist,
      lastN_lastN_append, List.append_assoc, List.singleton_append, List.map_cons]

/-- `true` exactly when no exception was raised. -/
def isOkB {ε α : Type} : Except ε α → Bool
  | .ok _ => true
  | .error _ => false

theorem finishOk_monitor (cfg : SupervisorAgent.Config) (st : SupervisorAgent.State)
    (env : SupervisorAgent.DispatchEnv) (q s a resp : PyStr)
    (res : SupervisorAgent.RouteResult) :
    (SupervisorAgent.finishOk cfg st env q s a resp res).st.monitor = st.monitor := by
  unfold SupervisorAgent.finishOk
  dsimp only
  split <;> split <;> rfl

theorem routeMiss_monitor (cfg : SupervisorAgent.Config) (st : SupervisorAgent.State)
    (env : SupervisorAgent.DispatchEnv) (q s : PyStr) :
    (SupervisorAgent.routeMiss cfg st env q s).st.monitor = st.monitor := by
  unfold SupervisorAgent.routeMiss
  cases env.classify_raw with
  | error e => rfl
  | ok raw =>
    dsimp only
    split
    · cases env.marketing_content with
      | error e => rfl
      | ok content => exact finishOk_monitor ..
    · cases env.knowledge_answer with
      | error e => rfl
      | ok answer => exact finishOk_monitor ..

theorem routeTry_monitor (cfg : SupervisorAgent.Config) (st : SupervisorAgent.State)
    (env : SupervisorAgent.DispatchEnv) (q s : PyStr) :
    (SupervisorAgent.routeTry cfg st env q s).st.monitor = st.monitor := by
  unfold SupervisorAgent.routeTry
  split
  · dsimp only
    split
    · split
      · exact routeMiss_monitor ..
      · rfl
    · exact routeMiss_monitor ..
  · exact routeMiss_monitor ..

theorem route_query_metrics (cfg : SupervisorAgent.Config)
    (hmon : cfg.enable_monitoring = true) (st : SupervisorAgent.State)
    (q s : PyStr) (env : SupervisorAgent.DispatchEnv) :
    ∃ e : PerformanceMonitor.LogEntry,
      (SupervisorAgent.route_query cfg st q s env).1.monitor.metrics =
        st.monitor.metrics ++ [e] ∧
      e.success = isOkB (SupervisorAgent.route_query cfg st q s env).2 := by
  unfold SupervisorAgent.route_query
  dsimp only
  rw [if_pos hmon]
  unfold PerformanceMonitor.log_query
  dsimp only
  rw [routeTry_monitor]
  refine ⟨_, rfl, ?_⟩
  cases htc : (SupervisorAgent.routeTry cfg st env q s).outcome <;> rfl

theorem dispatchAll_metrics (cfg : SupervisorAgent.Config)
    (hmon : cfg.enable_monitoring = true) :
    ∀ (calls : List SupervisorAgent.Call) (st : SupervisorAgent.State),
      (SupervisorAgent.dispatchAll cfg st calls).1.monitor.metrics.length =
        st.monitor.metrics.length + calls.length ∧
      ((SupervisorAgent.dispatchAll cfg st calls).1.monitor.metrics.filter
          (fun e => !e.success)).length =
        (st.monitor.metrics.filter (fun e => !e.success)).length +
          ((SupervisorAgent.dispatchAll cfg st calls).2.filter id).length := by
  intro calls
  induction calls with
  | nil => intro st; simp [SupervisorAgent.dispatchAll]
  | cons c cs ih =>
    intro st
    obtain ⟨e, he, hs⟩ := route_query_metrics cfg hmon st c.query c.session_id c.env
    unfold SupervisorAgent.dispatchAll
    dsimp only
    have hraised : (match (SupervisorAgent.route_query cfg st c.query c.session_id
        c.env).2 with | .ok _ => false | .error _ => true) = !e.success := by
      rw [hs]
      cases (SupervisorAgent.route_query cfg st c.query c.session_id c.env).2 <;> rfl
    constructor
    · rw [(ih _).1, he]
      simp only [List.length_append, List.length_cons, List.length_nil]
      omega
    · rw [(ih _).2, he, List.filter_append, List.length_append, hraised]
      simp only [List.filter_cons, List.length_cons]
      cases hsucc : e.success <;> simp [hsucc] <;> omega

instance {ε α : Type} [DecidableEq ε] [DecidableEq α] : DecidableEq (Except ε α) :=
  fun a b =>
    match a, b with
    | .ok x, .ok y =>
      if h : x = y then isTrue (congrArg Except.ok h)
      else isFalse fun hc => h (by injection hc)
    | .error x, .error y =>
      if h : x = y then isTrue (congrArg Except.error h)
      else isFalse fun hc => h (by injection hc)
    | .ok _, .error _ => isFalse fun hc => Except.noConfusion hc
    | .error _, .ok _ => isFalse fun hc => Except.noConfusion hc

/-- Both `get` outcomes of the cache at a present key, in one equation. -/
theorem cache_get_spec (c : ResponseCache.State) (now : ℕ) (q a : PyStr)
    (f : Option ResponseCache.Filters) (e : ResponseCache.Entry)
    (hlook : alookup (ResponseCache.generate_key q a f) c.entries = some e) :
    ResponseCache.get c now q a f =
      if c.ttlSecs < now - e.timestamp then
        ({ c with entries := adel (ResponseCache.generate_key q a f) c.entries }, none)
      else (c, some e.response) := by
  unfold ResponseCache.get
  dsimp only
  rw [hlook]

/-- Discriminator for `slow_query` anomalies. -/
def isSlowAnomaly : PerformanceMonitor.Anomaly → Bool
  | .slow_query _ _ _ => true
  | .error _ _ => false

/-- Discriminator for `error` anomalies. -/
def isErrorAnomaly : PerformanceMonitor.Anomaly → Bool
  | .slow_query _ _ _ => false
  | .error _ _ => true

/-- The slow-query threshold `detect_anomalies` computes: twice the all-time
mean response time. -/
def anomalyThreshold (m : PerformanceMonitor.State) : ℚ :=
  ((m.metrics.map (·.response_time_seconds)).sum /
    (m.metrics.map (·.response_time_seconds)).length) * 2

theorem filter_slow_flatMap (thr : ℚ) : ∀ w : List PerformanceMonitor.LogEntry,
    ((w.flatMap fun e =>
        (if thr < e.response_time_seconds then
          [PerformanceMonitor.Anomaly.slow_query (e.query.take 50)
            e.response_time_seconds (pyRound 2 thr)]
        else []) ++
        (if e.success then []
         else [PerformanceMonitor.Anomaly.error (e.query.take 50) e.error])).filter
      isSlowAnomaly) =
      (w.filter fun e => decide (thr < e.response_time_seconds)).map
        (fun e => PerformanceMonitor.Anomaly.slow_query (e.query.take 50)
          e.response_time_seconds (pyRound 2 thr)) := by
  intro w
  induction w with
  | nil => rfl
  | cons e rest ih =>
    by_cases hslow : thr < e.response_time_seconds <;> by_cases hsucc : e.success <;>
      simp [List.flatMap_cons, List.filter_append, List.filter_cons, hslow, hsucc,
        isSlowAnomaly, ih]

theorem filter_error_flatMap (thr : ℚ) : ∀ w : List PerformanceMonitor.LogEntry,
    ((w.flatMap fun e =>
        (if thr < e.response_time_seconds then
          [PerformanceMonitor.Anomaly.slow_query (e.query.take 50)
            e.response_time_seconds (pyRound 2 thr)]
        else []) ++
        (if e.success then []
         else [PerformanceMonitor.Anomaly.error (e.query.take 50) e.error])).filter
      isErrorAnomaly) =
      (w.filter fun e => !e.success).map
        (fun e => PerformanceMonitor.Anomaly.error (e.query.take 50) e.error) := by
  intro w
  induction w with
  | nil => rfl
  | cons e rest ih =>
    by_cases hslow : thr < e.response_time_seconds <;> by_cases hsucc : e.success <;>
      simp [List.flatMap_cons, List.filter_append, List.filter_cons, hslow, hsucc,
        isErrorAnomaly, ih]

theorem length_filter_add_length_filter_not {α : Type} (p : α → Bool) :
    ∀ l : List α, (l.filter p).length + (l.filter (fun x => !p x)).length = l.length := by
  intro l
  induction l with
  | nil => rfl
  | cons x xs ih =>
    by_cases h : p x <;> simp [List.filter_cons, h, ← ih] <;> omega

/-- The claim C4's hypothesis on filters: equal as dictionaries, differing only
in key order (dict keys are unique). -/
def FiltersEquiv : Option ResponseCache.Filters → Option ResponseCache.Filters → Prop
  | none, none => True
  | some f₁, some f₂ => f₁.Perm f₂ ∧ (f₁.map Prod.fst).Nodup
  | _, _ => False

/-! ## Claim theorems -/

set_option maxRecDepth 100000

/-- The all-enabled supervisor configuration used end-to-end. -/
def cfgAll : SupervisorAgent.Config := ⟨true, true, true⟩

/-- External environment for a dispatch whose classifier answers `knowledge`
and whose knowledge responder succeeds. -/
def c1Env : SupervisorAgent.DispatchEnv :=
  { classify_raw := .ok (pyS "knowledge")
    knowledge_answer := .ok (pyS "You need PAN card, Aadhaar and salary slips.")
    marketing_content := .ok (pyS "campaign")
    now := 100
    response_time := 1 }

/-- The end-to-end scenario query. -/
def c1Query : PyStr := pyS "What documents are needed for a salaried home loan?"

/-- First dispatch of the scenario, on a fresh supervisor. -/
def c1Run1 : SupervisorAgent.State × Except PyStr SupervisorAgent.RouteResult :=
  SupervisorAgent.route_query cfgAll SupervisorAgent.init c1Query (pyS "s1") c1Env

/-- Second dispatch of the identical query on the resulting state. -/
def c1Run2 : SupervisorAgent.State × Except PyStr SupervisorAgent.RouteResult :=
  SupervisorAgent.route_query cfgAll c1Run1.1 c1Query (pyS "s1") c1Env

/-- **C1.** The first dispatch classifies to `knowledge`, invokes the
responder once, and leaves one exchange in the session's memory — but the
second dispatch of the *identical* query text is NOT served from the cache:
`route_query` looks the cache up under agent type `"any"` while the write
after classification used `"knowledge"`, so the md5 fingerprints differ, the
lookup misses and the knowledge responder runs a second time. This refutes
the claimed cached second dispatch (the repository's own test
`test_memory_cache.py` documents the intended cache hit). -/
theorem c1_second_dispatch_invokes_responder_again :
    c1Run1.1.responder_calls = 1 ∧
    (c1Run1.1.memory.sessions (pyS "s1")).length = 1 ∧
    c1Run2.1.responder_calls = 2 ∧
    c1Run2.2 = .ok ⟨pyS "knowledge", pyS "answer",
      pyS "You need PAN card, Aadhaar and salary slips.", false, none⟩ := by
  decide

/-- **C2.** Every dispatch — cache hit, success or exception during
classification/responder invocation — appends exactly one monitor entry, so
after `N` dispatches on a fresh supervisor `get_stats().total_queries = N`
and `error_count` equals the number of dispatches that raised. (In the model
the only raising steps are the classifier and responder collaborators, as in
the claim.) -/
theorem c2_monitor_counts_all_dispatches (cfg : SupervisorAgent.Config)
    (hmon : cfg.enable_monitoring = true) (calls : List SupervisorAgent.Call)
    (hne : calls ≠ []) :
    (PerformanceMonitor.get_stats
        (SupervisorAgent.dispatchAll cfg SupervisorAgent.init calls).1.monitor).total_queries =
      calls.length ∧
    (PerformanceMonitor.get_stats
        (SupervisorAgent.dispatchAll cfg SupervisorAgent.init calls).1.monitor).error_count =
      ((SupervisorAgent.dispatchAll cfg SupervisorAgent.init calls).2.filter id).length := by
  obtain ⟨hlen, hfail⟩ := dispatchAll_metrics cfg hmon calls SupervisorAgent.init
  have hinit : SupervisorAgent.init.monitor.metrics = [] := rfl
  rw [hinit] at hlen hfail
  simp only [List.length_nil, List.filter_nil, Nat.zero_add] at hlen hfail
  have hnonempty :
      (SupervisorAgent.dispatchAll cfg SupervisorAgent.init calls).1.monitor.metrics ≠ [] := by
    intro h
    rw [h] at hlen
    exact hne (List.length_eq_zero.mp (by simpa using hlen.symm))
  unfold PerformanceMonitor.get_stats
  rw [if_neg hnonempty]
  dsimp only
  refine ⟨hlen, ?_⟩
  have hsum := length_filter_add_length_filter_not (fun e => e.success)
    (SupervisorAgent.dispatchAll cfg SupervisorAgent.init calls).1.monitor.metrics
  simp only at hsum hfail
  omega

/-- Environment whose classifier raises (models a collaborator exception). -/
def c2FailEnv : SupervisorAgent.DispatchEnv :=
  { classify_raw := .error (pyS "APIConnectionError")
    knowledge_answer := .error (pyS "unused")
    marketing_content := .error (pyS "unused")
    now := 200
    response_time := 2 }

/-- Two dispatches, the second raising during classification. -/
def c2Calls : List SupervisorAgent.Call :=
  [⟨c1Query, pyS "s1", c1Env⟩, ⟨pyS "What about eligibility?", pyS "s1", c2FailEnv⟩]

/-- Witness for C2: with 2 calls of which 1 raises, `total_queries = 2` and
`error_count = 1`. -/
theorem c2_monitor_witness :
    (PerformanceMonitor.get_stats
        (SupervisorAgent.dispatchAll cfgAll SupervisorAgent.init c2Calls).1.monitor).total_queries = 2 ∧
    (PerformanceMonitor.get_stats
        (SupervisorAgent.dispatchAll cfgAll SupervisorAgent.init c2Calls).1.monitor).error_count =
      ((SupervisorAgent.dispatchAll cfgAll SupervisorAgent.init c2Calls).2.filter id).length := by
  have h := c2_monitor_counts_all_dispatches cfgAll rfl c2Calls (List.cons_ne_nil _ _)
  exact ⟨by rw [h.1]; rfl, h.2⟩

/-- A cache holding one `knowledge` entry written at second 1000 (TTL 24 h). -/
def c3Cache : ResponseCache.State :=
  ResponseCache.set { entries := [], ttlSecs := 86400 } 1000
    (pyS "what is home loan?") (pyS "knowledge") (pyS "A home loan is a secured loan.") none

/-- **C3, counterexample.** A genuine cache hit returns the stored response
yet leaves the whole cache state — hence everything `get_stats` can report —
unchanged, and `get_stats` yields only `total_entries`, `by_agent` and
`ttl_hours`: the source maintains no hit/miss counters at all, so no counter
is incremented on a hit and no `hit_rate`/`total_hits` fields exist. -/
theorem c3_hit_leaves_stats_unchanged :
    (ResponseCache.get c3Cache 2000 (pyS "what is home loan?") (pyS "knowledge") none).2 =
      some (pyS "A home loan is a secured loan.") ∧
    (ResponseCache.get c3Cache 2000 (pyS "what is home loan?") (pyS "knowledge") none).1 =
      c3Cache ∧
    (ResponseCache.get_stats c3Cache).total_entries = 1 ∧
    (ResponseCache.get_stats c3Cache).by_agent = [(pyS "knowledge", 1)] ∧
    (ResponseCache.get_stats c3Cache).ttl_hours = 24 := by
  refine ⟨by decide, by decide, by decide, by decide, ?_⟩
  unfold ResponseCache.get_stats c3Cache ResponseCache.set
  norm_num

/-- **C3, amended.** `get_stats` reports `total_entries`, per-agent-type entry
counts and `ttl_hours` only; the cache keeps no hit/miss counters, and a
genuine (non-expired) hit returns the stored response with the cache state —
and therefore `get_stats` — unchanged. -/
theorem c3_cache_stats_amended (c : ResponseCache.State) (now : ℕ) (q a : PyStr)
    (f : Option ResponseCache.Filters) (e : ResponseCache.Entry)
    (hlook : alookup (ResponseCache.generate_key q a f) c.entries = some e)
    (hfresh : ¬ c.ttlSecs < now - e.timestamp) :
    ResponseCache.get c now q a f = (c, some e.response) ∧
    ResponseCache.get_stats (ResponseCache.get c now q a f).1 =
      ResponseCache.get_stats c := by
  have h := cache_get_spec c now q a f e hlook
  rw [h, if_neg hfresh]
  exact ⟨rfl, rfl⟩

/-- Witness for the amended C3 at a concrete cache and hit. -/
theorem c3_cache_stats_witness :
    ResponseCache.get c3Cache 2000 (pyS "what is home loan?") (pyS "knowledge") none =
      (c3Cache, some (pyS "A home loan is a secured loan.")) :=
  (c3_cache_stats_amended c3Cache 2000 (pyS "what is home loan?") (pyS "knowledge") none
    ⟨pyS "what is home loan?", pyS "knowledge", pyS "A home loan is a secured loan.",
      1000, none⟩ (by decide) (by decide)).1

/-- **C4.** Queries that agree after case-folding and stripping surrounding
whitespace, paired with filter dicts that are permutations of each other
(distinct keys), produce the same md5 fingerprint for the same agent type. -/
theorem c4_fingerprint_equality (q₁ q₂ a : PyStr)
    (f₁ f₂ : Option ResponseCache.Filters)
    (hq : pyStrip (pyLower q₁) = pyStrip (pyLower q₂)) (hf : FiltersEquiv f₁ f₂) :
    ResponseCache.generate_key q₁ a f₁ = ResponseCache.generate_key q₂ a f₂ := by
  unfold ResponseCache.generate_key
  rw [hq]
  cases f₁ with
  | none =>
    cases f₂ with
    | none => rfl
    | some g₂ => exact absurd hf (by simp [FiltersEquiv])
  | some g₁ =>
    cases f₂ with
    | none => exact absurd hf (by simp [FiltersEquiv])
    | some g₂ =>
      obtain ⟨hperm, hnd⟩ := hf
      have hdump : ResponseCache.jsonDumpsSorted g₁ = ResponseCache.jsonDumpsSorted g₂ := by
        unfold ResponseCache.jsonDumpsSorted
        rw [insertionSort_perm_nodupkeys g₁ g₂ hperm hnd]
      by_cases hg : g₁ = []
      · subst hg
        have hg₂ : g₂ = [] := hperm.nil_eq.symm
        subst hg₂
        rfl
      · have hg₂ : g₂ ≠ [] := fun h => hg (by subst h; exact hperm.symm.nil_eq.symm)
        dsimp only
        rw [if_neg hg, if_neg hg₂, hdump]

/-- A filter dict in one key order. -/
def c4F₁ : ResponseCache.Filters :=
  [(pyS "category", pyS "loan"), (pyS "audience", pyS "salaried")]

/-- The same dict with its keys in the other order. -/
def c4F₂ : ResponseCache.Filters :=
  [(pyS "audience", pyS "salaried"), (pyS "category", pyS "loan")]

/-- Witness for C4 on the spec's own example queries plus reordered filters. -/
theorem c4_fingerprint_witness :
    ResponseCache.generate_key (pyS "Loan Eligibility ") (pyS "knowledge") (some c4F₁) =
      ResponseCache.generate_key (pyS "loan eligibility") (pyS "knowledge") (some c4F₂) :=
  c4_fingerprint_equality (pyS "Loan Eligibility ") (pyS "loan eligibility")
    (pyS "knowledge") (some c4F₁) (some c4F₂) (by decide)
    (show c4F₁.Perm c4F₂ ∧ (c4F₁.map Prod.fst).Nodup from ⟨by decide, by decide⟩)

/-- **C5.** At a present key: if the entry's age exceeds the TTL, `get`
reports a miss and deletes the entry; otherwise it returns the stored
response and changes nothing. -/
theorem c5_ttl_expiry (c : ResponseCache.State) (now : ℕ) (q a : PyStr)
    (f : Option ResponseCache.Filters) (e : ResponseCache.Entry)
    (hlook : alookup (ResponseCache.generate_key q a f) c.entries = some e) :
    (c.ttlSecs < now - e.timestamp →
      ResponseCache.get c now q a f =
        ({ c with entries := adel (ResponseCache.generate_key q a f) c.entries }, none)) ∧
    (¬ c.ttlSecs < now - e.timestamp →
      ResponseCache.get c now q a f = (c, some e.response)) := by
  have h := cache_get_spec c now q a f e hlook
  constructor
  · intro hexp
    rw [h, if_pos hexp]
  · intro hfr
    rw [h, if_neg hfr]

/-- A 1-hour-TTL cache with one entry written at second 0. -/
def c5Cache : ResponseCache.State :=
  ResponseCache.set { entries := [], ttlSecs := 3600 } 0
    (pyS "q") (pyS "knowledge") (pyS "resp") none

/-- Witness for C5: a read at T+61 min misses and evicts; a read at T+50 min
returns the entry unchanged. -/
theorem c5_ttl_expiry_witness :
    ResponseCache.get c5Cache 3660 (pyS "q") (pyS "knowledge") none =
      ({ c5Cache with
          entries := adel (ResponseCache.generate_key (pyS "q") (pyS "knowledge") none)
            c5Cache.entries }, none) ∧
    ResponseCache.get c5Cache 3000 (pyS "q") (pyS "knowledge") none =
      (c5Cache, some (pyS "resp")) :=
  ⟨(c5_ttl_expiry c5Cache 3660 (pyS "q") (pyS "knowledge") none
      ⟨pyS "q", pyS "knowledge", pyS "resp", 0, none⟩ (by decide)).1 (by decide),
   (c5_ttl_expiry c5Cache 3000 (pyS "q") (pyS "knowledge") none
      ⟨pyS "q", pyS "knowledge", pyS "resp", 0, none⟩ (by decide)).2 (by decide)⟩

/-- A fresh conversation memory with the given bound. -/
def c6InitMem (mh : ℕ) : ConversationMemory.State := ⟨mh, fun _ => []⟩

/-- Two adds into a memory configured with `max_history = 0`. -/
def c6Mem0After : ConversationMemory.State :=
  applyAdds (c6InitMem 0) (pyS "s")
    [(1, pyS "q1", pyS "a1", pyS "knowledge"), (2, pyS "q2", pyS "a2", pyS "knowledge")]

/-- **C6, counterexample.** With `max_history = 0`, two `add_exchange` calls
(a sequence exceeding the bound) leave TWO exchanges in `get_history`, not
the claimed most-recent `max_history = 0` (i.e. none): the trim slice
`history[-max_history:]` is the whole list when `max_history` is `0`. -/
theorem c6_window_unbounded_at_zero_history :
    (ConversationMemory.get_history c6Mem0After (pyS "s") none).length = 2 ∧
    ConversationMemory.get_history c6Mem0After (pyS "s") none ≠ [] := by
  decide

/-- **C6, amended.** For every positive `max_history` bound, any sequence of
`add_exchange` calls for a session leaves `get_history` holding exactly the
most recent `max_history` exchanges (all of them while under the bound), in
their original chronological append order. -/
theorem c6_sliding_window_amended (mh : ℕ) (hmh : 1 ≤ mh) (sid : PyStr)
    (adds : List AddSpec) :
    ConversationMemory.get_history (applyAdds (c6InitMem mh) sid adds) sid none =
      (adds.map exchangeOf).drop (adds.length - mh) := by
  unfold ConversationMemory.get_history
  dsimp only
  rw [applyAdds_history sid adds (c6InitMem mh) hmh (by simp [c6InitMem, lastN])]
  unfold lastN
  simp [c6InitMem]

/-- Five adds for one session. -/
def c6Adds : List AddSpec :=
  [(1, pyS "q1", pyS "a1", pyS "knowledge"), (2, pyS "q2", pyS "a2", pyS "knowledge"),
   (3, pyS "q3", pyS "a3", pyS "knowledge"), (4, pyS "q4", pyS "a4", pyS "marketing"),
   (5, pyS "q5", pyS "a5", pyS "knowledge")]

/-- Witness for the amended C6: `max_history = 3`, five adds, the last three
in order. -/
theorem c6_sliding_window_witness :
    ConversationMemory.get_history (applyAdds (c6InitMem 3) (pyS "s") c6Adds)
        (pyS "s") none =
      (c6Adds.map exchangeOf).drop (c6Adds.length - 3) :=
  c6_sliding_window_amended 3 (by decide) (pyS "s") c6Adds

/-- Feedback from two different agent types: a knowledge rating of 5, then a
marketing rating of 2. -/
def c7Feedbacks : FeedbackCollector.State :=
  ⟨[⟨1, 10, pyS "u1", pyS "q1", pyS "r1", 5, pyS "", pyS "knowledge"⟩,
    ⟨2, 20, pyS "u2", pyS "q2", pyS "r2", 2, pyS "", pyS "marketing"⟩]⟩

/-- **C7, code-bug evaluation.** One of the two ratings is `≥ 4`, so the
claim demands `thumbs_up = 1`; the source's `for agent in by_agent:` loop
rebinds the local `ratings` to the *last* agent type's rating list
(`[2]` here), so `get_feedback_stats` reports `thumbs_up = 0`. -/
theorem c7_thumbs_up_shadowed_by_agent_loop :
    (FeedbackCollector.get_feedback_stats c7Feedbacks).thumbs_up = 0 ∧
    ((c7Feedbacks.feedbacks.map (·.rating)).filter (fun r => 4 ≤ r)).length = 1 ∧
    (FeedbackCollector.get_feedback_stats c7Feedbacks).thumbs_down = 1 := by
  decide

/-- One log entry with the given response time, outcome and query text. -/
def c8Entry (t : ℚ) (ok : Bool) (q : String) : PerformanceMonitor.LogEntry :=
  ⟨0, pyS "s", pyS q, pyS "knowledge", 10, t, ok, none, []⟩

/-- Six log entries: five fast successes and one slow failure. -/
def c8Demo : PerformanceMonitor.State :=
  ⟨[c8Entry 1 true "q1", c8Entry 1 true "q2", c8Entry 1 true "q3",
    c8Entry 1 true "q4", c8Entry 1 true "q5", c8Entry 10 false "q6"]⟩

/-- **C8.** `detect_anomalies` returns nothing below five entries; at five or
more it examines only the last ten entries, flagging as `slow_query` exactly
those whose response time exceeds twice the all-time mean, and as `error`
exactly those with `success = false`. -/
theorem c8_anomaly_detection (m : PerformanceMonitor.State) :
    (m.metrics.length < 5 → PerformanceMonitor.detect_anomalies m = []) ∧
    (5 ≤ m.metrics.length →
      ((PerformanceMonitor.detect_anomalies m).filter isSlowAnomaly =
        ((m.metrics.drop (m.metrics.length - 10)).filter
            (fun e => decide (anomalyThreshold m < e.response_time_seconds))).map
          (fun e => PerformanceMonitor.Anomaly.slow_query (e.query.take 50)
            e.response_time_seconds (pyRound 2 (anomalyThreshold m))) ∧
       (PerformanceMonitor.detect_anomalies m).filter isErrorAnomaly =
        ((m.metrics.drop (m.metrics.length - 10)).filter (fun e => !e.success)).map
          (fun e => PerformanceMonitor.Anomaly.error (e.query.take 50) e.error))) := by
  constructor
  · intro h
    unfold PerformanceMonitor.detect_anomalies
    rw [if_pos h]
  · intro h
    unfold PerformanceMonitor.detect_anomalies anomalyThreshold
    rw [if_neg (by omega)]
    dsimp only
    exact ⟨filter_slow_flatMap _ _, filter_error_flatMap _ _⟩

/-- Witness for C8 on the six-entry log: mean 5/2, threshold 5, one slow
flag and one error flag, both from the last entry. -/
theorem c8_anomaly_witness :
    5 ≤ c8Demo.metrics.length ∧
    ((PerformanceMonitor.detect_anomalies c8Demo).filter isSlowAnomaly =
      ((c8Demo.metrics.drop (c8Demo.metrics.length - 10)).filter
          (fun e => decide (anomalyThreshold c8Demo < e.response_time_seconds))).map
        (fun e => PerformanceMonitor.Anomaly.slow_query (e.query.take 50)
          e.response_time_seconds (pyRound 2 (anomalyThreshold c8Demo))) ∧
     (PerformanceMonitor.detect_anomalies c8Demo).filter isErrorAnomaly =
      ((c8Demo.metrics.drop (c8Demo.metrics.length - 10)).filter
          (fun e => !e.success)).map
        (fun e => PerformanceMonitor.Anomaly.error (e.query.take 50) e.error)) :=
  ⟨by decide, (c8_anomaly_detection c8Demo).2 (by decide)⟩

/-- **C9.** The classifier returns `marketing` exactly when the raw model
output contains `"marketing"` case-insensitively (the strip of surrounding
whitespace neither creates nor destroys an occurrence), and every other
output yields the default `knowledge`. -/
theorem c9_classifier_marketing_iff (raw : PyStr) :
    (SupervisorAgent.classify_query raw = pyS "marketing" ↔
      pyS "marketing" <:+: pyLower raw) ∧
    (¬ pyS "marketing" <:+: pyLower raw →
      SupervisorAgent.classify_query raw = pyS "knowledge") := by
  have hiff : (pyS "marketing" <:+: pyLower (pyStrip raw)) ↔
      (pyS "marketing" <:+: pyLower raw) := by
    rw [pyLower_pyStrip]
    exact infix_pyStrip_iff (pyS "marketing") (by decide) (by decide) (pyLower raw)
  unfold SupervisorAgent.classify_query
  constructor
  · constructor
    · intro h
      by_contra hnot
      rw [if_neg (fun hc => hnot (hiff.mp hc))] at h
      exact absurd h (by decide)
    · intro h
      rw [if_pos (hiff.mpr h)]
  · intro h
    rw [if_neg (fun hc => h (hiff.mp hc))]

/-- Witness for C9: an upper-case padded `marketing` output classifies as
marketing; an unrelated output defaults to knowledge. -/
theorem c9_classifier_witness :
    SupervisorAgent.classify_query (pyS "  MARKETING  ") = pyS "marketing" ∧
    SupervisorAgent.classify_query (pyS "something else") = pyS "knowledge" :=
  ⟨(c9_classifier_marketing_iff (pyS "  MARKETING  ")).1.mpr (by decide),
   (c9_classifier_marketing_iff (pyS "something else")).2 (by decide)⟩

/-- **C10.** A dispatch served from the cache returns the `cached`-tagged
result with `from_cache = true`, while the monitor entry logged for that very
dispatch records agent type `"error"`, an empty response (length 0) and
`success = true`: the early return skips the assignment of the local `result`
dict that the `finally`-block logging consults. -/
theorem c10_cache_hit_logs_error_agent (cfg : SupervisorAgent.Config)
    (st : SupervisorAgent.State) (q s : PyStr) (env : SupervisorAgent.DispatchEnv)
    (e : ResponseCache.Entry)
    (hc : cfg.enable_cache = true) (hm : cfg.enable_monitoring = true)
    (hlook : alookup (ResponseCache.generate_key q (pyS "any") none)
      st.cache.entries = some e)
    (hfresh : ¬ st.cache.ttlSecs < env.now - e.timestamp)
    (hne : e.response ≠ []) :
    (SupervisorAgent.route_query cfg st q s env).2 =
      .ok ⟨pyS "cached", pyS "cached", e.response, true, none⟩ ∧
    (SupervisorAgent.route_query cfg st q s env).1.monitor.metrics =
      st.monitor.metrics ++
        [⟨env.now, s, q, pyS "error", 0, pyRound 3 env.response_time, true, none, []⟩] := by
  have hget : ResponseCache.get st.cache env.now q (pyS "any") none =
      (st.cache, some e.response) := by
    rw [cache_get_spec st.cache env.now q (pyS "any") none e hlook, if_neg hfresh]
  have htry : SupervisorAgent.routeTry cfg st env q s =
      ⟨{ st with cache := st.cache }, none,
        .ok ⟨pyS "cached", pyS "cached", e.response, true, none⟩⟩ := by
    unfold SupervisorAgent.routeTry
    rw [if_pos hc]
    dsimp only
    rw [hget]
    dsimp only
    rw [if_neg hne]
  unfold SupervisorAgent.route_query
  rw [htry]
  dsimp only
  rw [if_pos hm]
  unfold PerformanceMonitor.log_query
  exact ⟨rfl, rfl⟩

/-- A query pre-seeded into the cache under the lookup tag `"any"`. -/
def c10Query : PyStr := pyS "What is the eligibility for home loan?"

/-- A fresh supervisor whose cache already holds `c10Query` under `"any"`. -/
def c10Seeded : SupervisorAgent.State :=
  { SupervisorAgent.init with
    cache := ResponseCache.set SupervisorAgent.init.cache 50 c10Query (pyS "any")
      (pyS "cached answer") none }

/-- Environment for the C10 witness dispatch. -/
def c10Env : SupervisorAgent.DispatchEnv :=
  { classify_raw := .ok (pyS "knowledge")
    knowledge_answer := .ok (pyS "fresh answer")
    marketing_content := .ok (pyS "campaign")
    now := 100
    response_time := 2 }

/-- Witness for C10: the seeded cache serves the dispatch, which returns the
`cached` result while logging agent type `"error"` with an empty response. -/
theorem c10_cache_hit_witness :
    (SupervisorAgent.route_query cfgAll c10Seeded c10Query (pyS "s9") c10Env).2 =
      .ok ⟨pyS "cached", pyS "cached", pyS "cached answer", true, none⟩ ∧
    (SupervisorAgent.route_query cfgAll c10Seeded c10Query (pyS "s9") c10Env).1.monitor.metrics =
      c10Seeded.monitor.metrics ++
        [⟨100, pyS "s9", c10Query, pyS "error", 0, pyRound 3 2, true, none, []⟩] :=
  c10_cache_hit_logs_error_agent cfgAll c10Seeded c10Query (pyS "s9") c10Env
    ⟨c10Query, pyS "any", pyS "cached answer", 50, none⟩ rfl rfl
    (by decide) (by decide) (by decide)
